import Mathlib

/-!
Verification of the shithead card-game backend (Go/Fiber/GORM) against its
natural-language specification.  The relational rows (lobbies, games, players,
cards, invitations, queue entries, notifications, sessions) are embedded as
lists of records held in a `DB` structure, kept in primary-key insertion order,
and each HTTP / websocket handler is embedded as a pure function on `DB`.
Every handler in the source wraps its writes in one transaction that is rolled
back on any error, so a handler is a function returning either an error (in
which case the database is unchanged) or the committed database.  UUIDs are
embedded as `Nat` (with `0` standing for `uuid.Nil`), timestamps as `Nat`,
SQL `INTEGER` columns as `Int`.
-/

namespace Shithead

/-- Row of the `sessions` table (`models.Session`). -/
structure Session where
  id : String
  userId : Nat
deriving DecidableEq

/-- Row of the `lobbies` table (`models.Lobby`), fields used by the handlers. -/
structure Lobby where
  id : Nat
  ownerId : Nat
  status : String
  maxPlayers : Int
  currentPlayers : Int
  privacyLevel : String
  passwordHash : String
deriving DecidableEq

/-- Row of the `games` table (`models.Game`).  `currentTurnPlayerId = 0`
embeds `uuid.Nil`. -/
structure Game where
  id : Nat
  lobbyId : Nat
  status : String
  currentTurnPlayerId : Nat
  roundNumber : Int
  winner : String
deriving DecidableEq

/-- Row of the `players` table (`models.Player`). -/
structure Player where
  id : Nat
  gameId : Nat
  userId : Nat
  lobbyId : Nat
  role : String
  isReady : Bool
  score : Int
deriving DecidableEq

/-- Row of the `cards` table (`models.Card`). -/
structure Card where
  id : Nat
  deckId : Nat
  gameId : Nat
  code : String
  value : String
  suit : String
  status : String
  locationType : String
  playerId : Option Nat
  isSpecialCard : Bool
  specialAction : String
deriving DecidableEq

/-- Row of the `decks` table (`models.Deck`). -/
structure Deck where
  id : Nat
  gameId : Nat
  totalCards : Int
  remainingCards : Int
deriving DecidableEq

/-- Row of the `lobby_invitations` table (`models.LobbyInvitation`). -/
structure LobbyInvitation where
  id : Nat
  lobbyId : Nat
  inviterId : Nat
  invitedUserId : Nat
  status : String
  token : String
  expiresAt : Nat
deriving DecidableEq

/-- Row of the `lobby_queues` table (`models.LobbyQueue`).  Its columns are
`id, lobby_id, user_id, queue_type, priority, position, created_at,
updated_at` (migration `lobby_queues`, and the `gorm` tag
`column:position` on `Position`). -/
structure LobbyQueue where
  id : Nat
  lobbyId : Nat
  userId : Nat
  queueType : String
  position : Option Int
deriving DecidableEq

/-- Row of the `notifications` table (`models.Notification`).  `dataLobbyId`
embeds the `lobby_id` key of the JSON `data` column when present
(the teardown path filters on `data->>'lobby_id'`). -/
structure Notification where
  id : Nat
  userId : Nat
  msgType : String
  dataLobbyId : Option Nat
deriving DecidableEq

/-- The relational store.  Each list is one table in primary-key order. -/
structure DB where
  sessions : List Session
  lobbies : List Lobby
  games : List Game
  players : List Player
  cards : List Card
  decks : List Deck
  invitations : List LobbyInvitation
  queues : List LobbyQueue
  notifications : List Notification
deriving DecidableEq

/-- `UPDATE games SET ... WHERE id = gid` applied through a row function. -/
def DB.updateGame (db : DB) (gid : Nat) (f : Game → Game) : DB :=
  { db with games := db.games.map fun g => if g.id == gid then f g else g }

/-- `UPDATE cards SET ... WHERE id = cid` applied through a row function. -/
def DB.updateCard (db : DB) (cid : Nat) (f : Card → Card) : DB :=
  { db with cards := db.cards.map fun c => if c.id == cid then f c else c }

/-- `UPDATE lobbies SET ... WHERE id = lid` applied through a row function. -/
def DB.updateLobby (db : DB) (lid : Nat) (f : Lobby → Lobby) : DB :=
  { db with lobbies := db.lobbies.map fun l => if l.id == lid then f l else l }

/-- `UPDATE lobby_invitations SET ... WHERE id = iid`. -/
def DB.updateInvitation (db : DB) (iid : Nat) (f : LobbyInvitation → LobbyInvitation) : DB :=
  { db with invitations := db.invitations.map fun i => if i.id == iid then f i else i }

/-- Placeholder player used with `List.getD`; the indices we read are always
in range when it matters. -/
def dummyPlayer : Player :=
  { id := 0, gameId := 0, userId := 0, lobbyId := 0, role := "", isReady := false, score := 0 }

/-- Placeholder card used with `List.getD`. -/
def dummyCard : Card :=
  { id := 0, deckId := 0, gameId := 0, code := "", value := "", suit := "", status := ""
    locationType := "", playerId := none, isSpecialCard := false, specialAction := "" }

/-! ## Game session hub (`internal/server/handler/game.go`) -/

/-- `game.Lobby.Players`: the players preloaded for the game's lobby, in
stored order. -/
def lobbyPlayersOf (db : DB) (g : Game) : List Player :=
  db.players.filter fun p => p.lobbyId == g.lobbyId

/-- `moveToNextPlayer` (game.go).  Loads the game with its lobby players,
errors when the lobby has no players or the current turn holder is not among
them, otherwise advances `current_turn_player_id` to the player at index
`(currentIndex+1) % playerCount` and saves the game. -/
def moveToNextPlayer (db : DB) (gameId : Nat) : Except String DB :=
  match db.games.find? (fun g => g.id == gameId) with
  | none => .error "game not found"
  | some game =>
    let ps := lobbyPlayersOf db game
    if ps.length == 0 then .error "no players in the game lobby"
    else
      match ps.findIdx? (fun p => p.id == game.currentTurnPlayerId) with
      | none => .error "current player not found"
      | some currentPlayerIndex =>
        let nextPlayerIndex := (currentPlayerIndex + 1) % ps.length
        .ok (db.updateGame gameId fun g =>
          { g with currentTurnPlayerId := (ps.getD nextPlayerIndex dummyPlayer).id })

/-- `isValidPlay` (game.go).  Defined in the source but called from nowhere.
A nil top card (`ID = uuid.Nil`, embedded as `0`) accepts anything; values
`"6"` and `"10"` are wild; otherwise values must match. -/
def isValidPlay (card topCard : Card) : Bool :=
  if topCard.id == 0 then true
  else if card.value == "6" || card.value == "10" then true
  else card.value == topCard.value

/-- The `play_card` transaction (game.go, `case "play_card"`).  Looks the card
up by its id alone, moves it to `location_type = "play_pile"` clearing
`player_id`, then advances the turn of the game named in the payload.  Any
error rolls the transaction back. -/
def playCardTx (db : DB) (cardId gameId : Nat) : Except String DB :=
  match db.cards.find? (fun c => c.id == cardId) with
  | none => .error "Card not found"
  | some _ =>
    let db1 := db.updateCard cardId fun c =>
      { c with locationType := "play_pile", playerId := none }
    moveToNextPlayer db1 gameId

/-- The `play_card` case as the hub runs it: on success the new database is
committed and one `game_update` event is broadcast; on failure the
transaction is rolled back and nothing is broadcast. -/
def playCardStep (db : DB) (cardId gameId : Nat) : DB × List String :=
  match playCardTx db cardId gameId with
  | .ok db1 => (db1, ["game_update"])
  | .error _ => (db, [])

/-- The cards eligible for `draw_card`: `location_type = 'deck' AND player_id
IS NULL`. -/
def eligibleDeck (db : DB) : List Card :=
  db.cards.filter fun c => c.locationType == "deck" && c.playerId.isNone

/-- The `draw_card` transaction (game.go, `case "draw_card"`).  `ORDER BY
random()` picks an arbitrary eligible card; the choice is embedded as the
index `pick % count` into the eligible list.  The chosen card is moved to the
drawer's hand; when no eligible card exists the transaction fails. -/
def drawCardTx (db : DB) (playerId : Nat) (pick : Nat) : Except String DB :=
  match eligibleDeck db with
  | [] => .error "No cards left in deck"
  | _ :: _ =>
    let chosen := (eligibleDeck db).getD (pick % (eligibleDeck db).length) dummyCard
    .ok (db.updateCard chosen.id fun c =>
      { c with status := "hand", locationType := "hand", playerId := some playerId })

/-- The `draw_card` case with commit/rollback and broadcast semantics. -/
def drawCardStep (db : DB) (playerId : Nat) (pick : Nat) : DB × List String :=
  match drawCardTx db playerId pick with
  | .ok db1 => (db1, ["game_update"])
  | .error _ => (db, [])

/-- An inbound hub envelope `{type, payload}` with the payload fields the
recognized actions read. -/
structure HubMsg where
  type : String
  cardId : Option Nat := none
  gameId : Option Nat := none
  playerId : Option Nat := none
  lobbyId : Option Nat := none
deriving DecidableEq

/-- One iteration of the hub read loop for one parsed message (game.go,
`Game`).  The session cookie is looked up first; when it resolves to no
stored session a `game_error` event is broadcast — and the switch over the
message type still runs, exactly as in the source, which does not `continue`
after the failed lookup.  Returns the database after the action and the list
of broadcast event types in order. -/
def hubDispatch (db : DB) (sessionId : String) (msg : HubMsg) (pick : Nat) :
    DB × List String :=
  let sess := db.sessions.find? (fun s => s.id == sessionId)
  let errNotice : List String := if sess.isSome then [] else ["game_error"]
  let userId := (sess.map Session.userId).getD 0
  let (db1, out) :=
    if msg.type == "game_action" then
      (db, ["game_update"])
    else if msg.type == "lobby_ready" then
      match msg.lobbyId with
      | none => (db, [])
      | some lid =>
        match db.players.find? (fun p => p.lobbyId == lid && p.userId == userId) with
        | none => (db, [])
        | some player =>
          if player.isReady then (db, ["lobby_ready"])
          else
            ({ db with players := db.players.map fun p =>
                if p.id == player.id then { p with isReady := true } else p },
             ["lobby_ready"])
    else if msg.type == "play_card" then
      match msg.cardId, msg.gameId with
      | some cid, some gid => playCardStep db cid gid
      | _, _ => (db, [])
    else if msg.type == "draw_card" then
      match msg.playerId with
      | some pid => drawCardStep db pid pick
      | none => (db, [])
    else if msg.type == "start_game" then
      match msg.gameId with
      | none => (db, [])
      | some gid =>
        match db.games.find? (fun g => g.id == gid) with
        | none => (db, [])
        | some game =>
          if game.status != "waiting" then (db, [])
          else (db.updateGame gid (fun g => { g with status := "in_progress" }),
                ["game_started"])
    else (db, [])
  (db1, errNotice ++ out)

/-! ## Lobby state machine

The repository carries two revisions of the lobby handler.  The routes
(`routes.go`, parameter `:lobbyId`, route `POST /lobbies/invitation/accept`)
are wired to the revision whose handlers take `c.Params("lobbyId")`; those
handlers are embedded below under their source names.  The superseded
revision (`internal/server/handler/lobby.go`, parameter `:id`) differs in its
join and invite paths; the functions of that revision that claims cite are
embedded with a `V2` suffix. -/

/-- `addPlayerToLobby` (lobbyId-revision).  Finds or creates the lobby's
waiting game; returns silently if the user is already seated; otherwise runs
`UPDATE lobbies SET current_players = current_players + 1` (a SQL expression,
which does not refresh the in-memory `lobby` struct), inserts the Player row
(role computed from the stale struct value), and finally `Save(lobby)`, which
writes the whole stale struct back over the row — undoing the increment. -/
def addPlayerToLobby (db : DB) (lobby : Lobby) (userId : Nat)
    (freshGameId freshPlayerId : Nat) : DB :=
  let newGame : Game :=
    { id := freshGameId
      lobbyId := lobby.id
      status := "waiting"
      currentTurnPlayerId := 0
      roundNumber := 1
      winner := "none" }
  let found := db.games.find? fun g => g.lobbyId == lobby.id && g.status == "waiting"
  let db1 :=
    match found with
    | some _ => db
    | none => { db with games := db.games ++ [newGame] }
  let gId := match found with
    | some g => g.id
    | none => freshGameId
  if (db1.players.find? fun p => p.lobbyId == lobby.id && p.userId == userId).isSome then
    db1
  else
    let db2 := db1.updateLobby lobby.id fun l => { l with currentPlayers := l.currentPlayers + 1 }
    let player : Player :=
      { id := freshPlayerId
        gameId := gId
        userId := userId
        lobbyId := lobby.id
        role := "player" ++ toString lobby.currentPlayers
        isReady := false
        score := 0 }
    let db3 := { db2 with players := db2.players ++ [player] }
    db3.updateLobby lobby.id fun _ => lobby

/-- `AcceptInvitation` (lobbyId-revision).  Locates the invitation for
(lobby, invited user), rejects it when expired or no longer pending, rejects
when the lobby is full, marks it accepted, seats the user through
`addPlayerToLobby`, and then additionally sets
`current_players = lobby.CurrentPlayers + 1` from the stale struct before
committing; finally a notification without a `lobby_id` key in its data is
created for the owner. -/
def acceptInvitation (db : DB) (userId reqLobbyId now : Nat)
    (freshGameId freshPlayerId freshNotifId : Nat) : Except String DB :=
  match db.invitations.find? (fun i => i.lobbyId == reqLobbyId && i.invitedUserId == userId) with
  | none => .error "Invalid invitation"
  | some invitation =>
    if invitation.expiresAt < now then .error "Invitation has expired"
    else if invitation.status != "pending" then .error "Invitation has already been processed"
    else
      match db.lobbies.find? (fun l => l.id == invitation.lobbyId) with
      | none => .error "Lobby not found"
      | some lobby =>
        if lobby.currentPlayers ≥ lobby.maxPlayers then .error "Lobby is full"
        else
          let db1 := db.updateInvitation invitation.id fun i => { i with status := "accepted" }
          let db2 := addPlayerToLobby db1 lobby userId freshGameId freshPlayerId
          let db3 := db2.updateLobby lobby.id fun l =>
            { l with currentPlayers := lobby.currentPlayers + 1 }
          let notif : Notification :=
            { id := freshNotifId
              userId := lobby.ownerId
              msgType := "lobby_invitation_accepted"
              dataLobbyId := none }
          .ok { db3 with notifications := db3.notifications ++ [notif] }

/-- Outcome of `InviteUser`. -/
inductive InviteOutcome where
  | selfInvite
  | lobbyNotFound
  | notOwner
  | lobbyFull
  | duplicatePending
  | sent
deriving DecidableEq

/-- `InviteUser` (lobbyId-revision).  Rejects self-invites, unknown lobbies,
non-owners, full lobbies and pairs that already hold a pending invitation;
otherwise inserts a pending invitation expiring 30 minutes from now together
with a notification carrying the lobby id in its data, in one transaction.
Rejections leave the database unchanged. -/
def inviteUser (db : DB) (currentUserId lobbyId invitedUserId now : Nat)
    (freshInvId freshNotifId : Nat) : DB × InviteOutcome :=
  if invitedUserId == currentUserId then (db, .selfInvite)
  else
    match db.lobbies.find? (fun l => l.id == lobbyId) with
    | none => (db, .lobbyNotFound)
    | some lobby =>
      if lobby.ownerId != currentUserId then (db, .notOwner)
      else if lobby.currentPlayers ≥ lobby.maxPlayers then (db, .lobbyFull)
      else if (db.invitations.find? fun i =>
          i.lobbyId == lobbyId && i.invitedUserId == invitedUserId &&
          i.status == "pending").isSome then
        (db, .duplicatePending)
      else
        let invitation : LobbyInvitation :=
          { id := freshInvId
            lobbyId := lobby.id
            inviterId := currentUserId
            invitedUserId := invitedUserId
            status := "pending"
            token := ""
            expiresAt := now + 30 * 60 }
        let notif : Notification :=
          { id := freshNotifId
            userId := invitedUserId
            msgType := "lobby_invitation"
            dataLobbyId := some lobby.id }
        ({ db with
            invitations := db.invitations ++ [invitation]
            notifications := db.notifications ++ [notif] },
         .sent)

/-- `deleteLobbyAndRelatedRecords`: inside the owner's leave transaction,
deletes the lobby's invitations, players, queue entries, games, the
notifications whose JSON data carries this `lobby_id`, and the lobby row. -/
def deleteLobbyAndRelatedRecords (db : DB) (lobbyId : Nat) : DB :=
  { db with
    invitations := db.invitations.filter fun i => !(i.lobbyId == lobbyId),
    players := db.players.filter fun p => !(p.lobbyId == lobbyId),
    queues := db.queues.filter fun q => !(q.lobbyId == lobbyId),
    games := db.games.filter fun g => !(g.lobbyId == lobbyId),
    notifications := db.notifications.filter fun n => !(n.dataLobbyId == some lobbyId),
    lobbies := db.lobbies.filter fun l => !(l.id == lobbyId) }

/-- Outcome of `LeaveLobby`. -/
inductive LeaveOutcome where
  | notFound
  | deletedLobby
  | notInLobby
  | left
deriving DecidableEq

/-- `LeaveLobby` (lobbyId-revision).  The owner's call tears the whole lobby
down in one transaction; a non-owner member is removed, the counter
decremented, and any queue entry deleted.  Failures roll back. -/
def leaveLobby (db : DB) (userId lobbyId : Nat) : DB × LeaveOutcome :=
  match db.lobbies.find? (fun l => l.id == lobbyId) with
  | none => (db, .notFound)
  | some lobby =>
    if lobby.ownerId == userId then
      (deleteLobbyAndRelatedRecords db lobbyId, .deletedLobby)
    else
      match db.players.find? (fun p => p.lobbyId == lobbyId && p.userId == userId) with
      | none => (db, .notInLobby)
      | some player =>
        let db1 := { db with players := db.players.filter fun p => !(p.id == player.id) }
        let db2 := db1.updateLobby lobbyId fun l =>
          { l with currentPlayers := l.currentPlayers - 1 }
        ({ db2 with queues := db2.queues.filter fun q =>
            !(q.lobbyId == lobbyId && q.userId == userId) },
         .left)

/-- Outcome of `JoinLobby` (lobbyId-revision). -/
inductive JoinOutcome where
  | notFound
  | notAccepting
  | alreadyJoined
  | panicNilDeref
deriving DecidableEq

/-- `JoinLobby` (lobbyId-revision), called with the session already resolved
to `userId`.  An unknown lobby id fails with the NotFound response; a
non-waiting lobby is rejected; a user already seated gets an immediate
"Successfully joined" commit.  For any user who is not yet seated the source
then scans `lobby.Players` for the caller, necessarily leaves
`currentPlayer` nil, and dereferences `currentPlayer.ID` — a nil-pointer
panic, so the transaction never commits and no row is written. -/
def joinLobby (db : DB) (userId lobbyId : Nat) : DB × JoinOutcome :=
  match db.lobbies.find? (fun l => l.id == lobbyId) with
  | none => (db, .notFound)
  | some lobby =>
    if lobby.status != "waiting" then (db, .notAccepting)
    else if (db.players.find? fun p => p.lobbyId == lobbyId && p.userId == userId).isSome then
      (db, .alreadyJoined)
    else
      (db, .panicNilDeref)

/-- Outcome of the queue-join path. -/
inductive QueueOutcome where
  | alreadyInQueue
  | queued (position : Int)
deriving DecidableEq

/-- The query `SELECT * FROM lobby_queues WHERE lobby_id = ? ORDER BY
queue_position DESC LIMIT 1` issued by `handleQueueJoin` in both handler
revisions.  The `lobby_queues` schema has no `queue_position` column — the
migration and the `gorm` model both name the column `position` — so the
statement always fails on the database and the handler's
`lastPosition + 1` branch is never taken. -/
def lastQueueByQueuePosition (qs : List LobbyQueue) : Except String LobbyQueue :=
  .error ("column queue_position does not exist for rows " ++ toString qs.length)

/-- `handleQueueJoin` (identical in both revisions).  A user already queued
for the lobby is rejected without an insert; otherwise the position defaults
to 1, the failed max-position lookup never overrides it, and a queue row
with that position is inserted and committed. -/
def handleQueueJoin (db : DB) (lobby : Lobby) (userId : Nat) (freshQueueId : Nat) :
    DB × QueueOutcome :=
  if (db.queues.find? fun q => q.lobbyId == lobby.id && q.userId == userId).isSome then
    (db, .alreadyInQueue)
  else
    let queuePosition : Int :=
      match lastQueueByQueuePosition (db.queues.filter fun q => q.lobbyId == lobby.id) with
      | .ok lastQueue => lastQueue.position.getD 0 + 1
      | .error _ => 1
    let row : LobbyQueue :=
      { id := freshQueueId
        lobbyId := lobby.id
        userId := userId
        queueType := "player"
        position := some queuePosition }
    ({ db with queues := db.queues ++ [row] }, .queued queuePosition)

/-- `addPlayerToLobby` of the superseded `:id` revision
(`internal/server/handler/lobby.go`).  Finds or creates the waiting game,
inserts the Player with role `player{current_players+1}`, and sets
`current_players` to the literal value `lobby.CurrentPlayers + 1`. -/
def addPlayerToLobbyV2 (db : DB) (lobby : Lobby) (userId : Nat)
    (freshGameId freshPlayerId : Nat) : DB :=
  let newGame : Game :=
    { id := freshGameId
      lobbyId := lobby.id
      status := "waiting"
      currentTurnPlayerId := 0
      roundNumber := 1
      winner := "none" }
  let found := db.games.find? fun g => g.lobbyId == lobby.id && g.status == "waiting"
  let db1 :=
    match found with
    | some _ => db
    | none => { db with games := db.games ++ [newGame] }
  let gId := match found with
    | some g => g.id
    | none => freshGameId
  let player : Player :=
    { id := freshPlayerId
      gameId := gId
      userId := userId
      lobbyId := lobby.id
      role := "player" ++ toString (lobby.currentPlayers + 1)
      isReady := false
      score := 0 }
  let db2 := { db1 with players := db1.players ++ [player] }
  db2.updateLobby lobby.id fun l => { l with currentPlayers := lobby.currentPlayers + 1 }

/-- Outcome of `JoinLobby` in the superseded `:id` revision. -/
inductive JoinV2Outcome where
  | notFound
  | alreadyInLobby
  | notAccepting
  | wrongPassword
  | invalidInvitation
  | alreadyInQueue
  | queued (position : Int)
  | joined
deriving DecidableEq

/-- `JoinLobby` of the superseded `:id` revision, with the session resolved
to `userId` and bcrypt verification abstracted as `pwCheck`.  Locks and loads
the lobby, rejects an already-seated caller, rejects a non-waiting lobby,
applies the privacy gate (password check, or pending-invitation /
invite-token check that marks the invitation accepted), routes to the queue
when `current_players >= max_players`, and otherwise seats the caller via
`addPlayerToLobbyV2` and commits. -/
def joinLobbyV2 (db : DB) (userId lobbyId : Nat) (password inviteCode : String)
    (now : Nat) (pwCheck : String → String → Bool)
    (freshQueueId freshGameId freshPlayerId : Nat) : DB × JoinV2Outcome :=
  match db.lobbies.find? (fun l => l.id == lobbyId) with
  | none => (db, .notFound)
  | some lobby =>
    if (db.players.find? fun p => p.lobbyId == lobbyId && p.userId == userId).isSome then
      (db, .alreadyInLobby)
    else if lobby.status != "waiting" then (db, .notAccepting)
    else
      let gate : Except JoinV2Outcome DB :=
        if lobby.privacyLevel == "password_protected" then
          if password == "" || !(pwCheck password lobby.passwordHash) then
            .error .wrongPassword
          else .ok db
        else if lobby.privacyLevel == "invite_only" then
          let direct := db.invitations.find? fun i =>
            i.lobbyId == lobbyId && i.invitedUserId == userId &&
            i.status == "pending" && now < i.expiresAt
          let byToken := db.invitations.find? fun i =>
            i.lobbyId == lobbyId && i.token == inviteCode &&
            i.status == "pending" && now < i.expiresAt
          match direct with
          | some invitation =>
            .ok (db.updateInvitation invitation.id fun i => { i with status := "accepted" })
          | none =>
            if inviteCode != "" then
              match byToken with
              | some invitation =>
                .ok (db.updateInvitation invitation.id fun i => { i with status := "accepted" })
              | none => .error .invalidInvitation
            else .error .invalidInvitation
        else .ok db
      match gate with
      | .error o => (db, o)
      | .ok db1 =>
        if lobby.currentPlayers ≥ lobby.maxPlayers then
          match handleQueueJoin db1 lobby userId freshQueueId with
          | (_, .alreadyInQueue) => (db, .alreadyInQueue)
          | (db2, .queued pos) => (db2, .queued pos)
        else
          (addPlayerToLobbyV2 db1 lobby userId freshGameId freshPlayerId, .joined)

/-! ## Deck creation (`internal/server/handler/card.go`) -/

/-- A card face returned by the external Card Source
(`FetchAllCards`). -/
structure ApiCard where
  code : String
  value : String
  suit : String
  image : String
deriving DecidableEq

/-- `isSpecialCard` (card.go): values `"6"` and `"10"` are special. -/
def isSpecialCard (value : String) : Bool :=
  value == "6" || value == "10"

/-- `getSpecialAction` (card.go): `"6" → any`, `"10" → clear`, every other
value (the map's default) → `none`. -/
def getSpecialAction (value : String) : String :=
  if value == "6" then "any"
  else if value == "10" then "clear"
  else "none"

/-- The nine deal slots of one player, in loop order: three `hidden`, three
`faceup`, three `hand`. -/
def dealSlotsFor (p : Player) : List (Nat × String) :=
  [(p.id, "hidden"), (p.id, "hidden"), (p.id, "hidden"),
   (p.id, "faceup"), (p.id, "faceup"), (p.id, "faceup"),
   (p.id, "hand"), (p.id, "hand"), (p.id, "hand")]

/-- All deal slots in player-list order. -/
def dealSlots : List Player → List (Nat × String)
  | [] => []
  | p :: ps => dealSlotsFor p ++ dealSlots ps

/-- A dealt card row: `status` is the slot bucket, `location_type` is
`player`, `player_id` the slot's player. -/
def mkDealtCard (deckId gameId : Nat) (slot : Nat × String) (a : ApiCard) : Card :=
  { id := 0, deckId := deckId, gameId := gameId, code := a.code, value := a.value,
    suit := a.suit, status := slot.2, locationType := "player", playerId := some slot.1,
    isSpecialCard := isSpecialCard a.value, specialAction := getSpecialAction a.value }

/-- A card row left on the shared pile: `status = in_deck`,
`location_type = deck`, no player. -/
def mkDeckCard (deckId gameId : Nat) (a : ApiCard) : Card :=
  { id := 0, deckId := deckId, gameId := gameId, code := a.code, value := a.value,
    suit := a.suit, status := "in_deck", locationType := "deck", playerId := none,
    isSpecialCard := isSpecialCard a.value, specialAction := getSpecialAction a.value }

/-- The distribution loop of `getOrCreateGameCards`: consume one fetched card
per slot, aborting (`none`) when the fetched cards run out before the slots
do; returns the dealt rows and the remaining fetched cards. -/
def dealOut (deckId gameId : Nat) :
    List (Nat × String) → List ApiCard → Option (List Card × List ApiCard)
  | [], rest => some ([], rest)
  | _ :: _, [] => none
  | slot :: slots, a :: rest =>
    match dealOut deckId gameId slots rest with
    | none => none
    | some (cs, r) => some (mkDealtCard deckId gameId slot a :: cs, r)

/-- `uuid.New()` for each created card row, embedded as consecutive fresh
ids from `base`. -/
def withFreshIds (base : Nat) (cs : List Card) : List Card :=
  (List.range cs.length).zipWith (fun i c => { c with id := base + i }) cs

/-- `getOrCreateGameCards` (card.go), with the Card Source response passed in
as `api`.  When a Deck row already exists for the game the existing cards
are returned unchanged.  Otherwise, inside one serializable transaction: the
players are loaded (none → abort), the fetched cards are counted (≠ 52 →
abort), the first nine cards per player are dealt in player-list order
(running out → abort), the remainder goes to the shared deck pile, and the
Deck plus all Card rows are committed. -/
def getOrCreateGameCards (db : DB) (gameId : Nat) (api : List ApiCard)
    (freshDeckId cardIdBase : Nat) : Except String (DB × List Card) :=
  if (db.decks.find? fun d => d.gameId == gameId).isSome then
    .ok (db, db.cards.filter fun c => c.gameId == gameId)
  else
    let players := db.players.filter fun p => p.gameId == gameId
    if players.length == 0 then .error "no players found for game"
    else if api.length != 52 then .error "expected 52 cards from API"
    else
      match dealOut freshDeckId gameId (dealSlots players) api with
      | none => .error "not enough cards for distribution"
      | some (dealt, rest) =>
        let cards := withFreshIds cardIdBase (dealt ++ rest.map (mkDeckCard freshDeckId gameId))
        let deck : Deck := { id := freshDeckId, gameId := gameId, totalCards := 52,
                             remainingCards := (rest.length : Int) }
        .ok ({ db with decks := db.decks ++ [deck], cards := db.cards ++ cards }, cards)

/-! ## Invariants and spec-side descriptions -/

/-- `count(Players where lobby_id = L)`. -/
def playerCount (db : DB) (lobbyId : Nat) : Int :=
  ((db.players.filter fun p => p.lobbyId == lobbyId).length : Int)

/-- The lobby-capacity invariant of the spec: for every lobby,
`current_players` equals the live Player count and never exceeds
`max_players`. -/
def lobbyCountInvariant (db : DB) : Prop :=
  ∀ l ∈ db.lobbies, l.currentPlayers = playerCount db l.id ∧ l.currentPlayers ≤ l.maxPlayers

instance (db : DB) : Decidable (lobbyCountInvariant db) := by
  unfold lobbyCountInvariant; infer_instance

/-- The invitation invariant of the spec: no two distinct pending
invitation rows target the same (lobby, invited user) pair. -/
def pendingUnique (db : DB) : Prop :=
  db.invitations.Pairwise fun a b =>
    a.status = "pending" → b.status = "pending" →
    a.lobbyId = b.lobbyId → a.invitedUserId = b.invitedUserId → False

instance (db : DB) : Decidable (pendingUnique db) := by
  unfold pendingUnique; infer_instance

/-- Result of a transaction, as committed: the new database on success, the
unchanged database after a rollback. -/
def committedDB (db : DB) (r : Except String DB) : DB :=
  match r with
  | .ok db1 => db1
  | .error _ => db

/-- Whether a transaction committed. -/
def committed (r : Except String DB) : Bool :=
  match r with
  | .ok _ => true
  | .error _ => false

/-- Spec-side description of the deal (claim wording): in player-list order,
each player's first nine cards are three `hidden`, three `faceup` and three
`hand`, all seated at that player with `location_type = player`; every later
card carries `(none, in_deck, deck)`. -/
def expectedAssignment : List Player → List (Option Nat × String × String)
  | [] => []
  | p :: ps =>
    (List.replicate 3 (some p.id, "hidden", "player") ++
     List.replicate 3 (some p.id, "faceup", "player") ++
     List.replicate 3 (some p.id, "hand", "player")) ++ expectedAssignment ps

/-! ## Concrete database states used by counterexamples and witnesses -/

/-- The empty store. -/
def emptyDB : DB :=
  { sessions := []
    lobbies := []
    games := []
    players := []
    cards := []
    decks := []
    invitations := []
    queues := []
    notifications := [] }

/-- An open four-seat lobby owned by user 10 holding two seated players. -/
def lobbyTwoSeated : Lobby :=
  { id := 1
    ownerId := 10
    status := "waiting"
    maxPlayers := 4
    currentPlayers := 2
    privacyLevel := "open"
    passwordHash := "" }

/-- The lobby's waiting game. -/
def gameWaiting : Game :=
  { id := 50
    lobbyId := 1
    status := "waiting"
    currentTurnPlayerId := 100
    roundNumber := 1
    winner := "none" }

/-- The owner's seat. -/
def ownerSeat : Player :=
  { id := 100
    gameId := 50
    userId := 10
    lobbyId := 1
    role := "player1"
    isReady := false
    score := 0 }

/-- The guest's seat (user 20), already present in lobby 1. -/
def guestSeat : Player :=
  { id := 101
    gameId := 50
    userId := 20
    lobbyId := 1
    role := "player2"
    isReady := false
    score := 0 }

/-- A pending invitation of user 20 into lobby 1 (user 20 is meanwhile
already seated: `InviteUser` never checks membership, and an earlier
invitation can be accepted after a join). -/
def pendingInviteForGuest : LobbyInvitation :=
  { id := 7
    lobbyId := 1
    inviterId := 10
    invitedUserId := 20
    status := "pending"
    token := ""
    expiresAt := 1000 }

/-- Reachable state for the `AcceptInvitation` counter-drift run: two seats,
`current_players = 2`, and a pending invitation for the already-seated
user 20. -/
def dbAccept : DB :=
  { emptyDB with
      lobbies := [lobbyTwoSeated]
      games := [gameWaiting]
      players := [ownerSeat, guestSeat]
      invitations := [pendingInviteForGuest] }

/-- A hand card of player 100 in game 50. -/
def handCard : Card :=
  { id := 500
    deckId := 5
    gameId := 50
    code := "AS"
    value := "A"
    suit := "SPADES"
    status := "hand"
    locationType := "hand"
    playerId := some 100
    isSpecialCard := false
    specialAction := "none" }

/-- State for the invalid-session hub run: a playable card and game exist but
the sessions table is empty, so no cookie resolves. -/
def dbNoSession : DB :=
  { emptyDB with
      lobbies := [lobbyTwoSeated]
      games := [gameWaiting]
      players := [ownerSeat, guestSeat]
      cards := [handCard] }

/-- The `play_card` envelope naming card 500 and game 50. -/
def playCardMsg : HubMsg :=
  { type := "play_card", cardId := some 500, gameId := some 50 }

/-- A second game in a different lobby whose card will be played against
game 50. -/
def gameOther : Game :=
  { id := 60
    lobbyId := 2
    status := "in_progress"
    currentTurnPlayerId := 300
    roundNumber := 1
    winner := "none" }

/-- A card belonging to the other game (id 60). -/
def cardOfOtherGame : Card :=
  { id := 700
    deckId := 6
    gameId := 60
    code := "7H"
    value := "7"
    suit := "HEARTS"
    status := "hand"
    locationType := "hand"
    playerId := some 300
    isSpecialCard := false
    specialAction := "none" }

/-- State for the cross-game `play_card` run: game 50 with its lobby players,
plus a card that resolves to game 60, not game 50. -/
def dbCrossGame : DB :=
  { emptyDB with
      lobbies := [lobbyTwoSeated]
      games := [gameWaiting, gameOther]
      players := [ownerSeat, guestSeat]
      cards := [cardOfOtherGame] }

/-- A full two-seat lobby used for the queue-position run. -/
def lobbyFullTwo : Lobby :=
  { id := 1
    ownerId := 10
    status := "waiting"
    maxPlayers := 2
    currentPlayers := 2
    privacyLevel := "open"
    passwordHash := "" }

/-- The queue row of user 30, holding position 1. -/
def queuedUser30 : LobbyQueue :=
  { id := 80
    lobbyId := 1
    userId := 30
    queueType := "player"
    position := some 1 }

/-- State for the queue-position run: lobby 1 is at capacity and user 30
already waits at position 1. -/
def dbQueue : DB :=
  { emptyDB with
      lobbies := [lobbyFullTwo]
      games := [gameWaiting]
      players := [ownerSeat, guestSeat]
      queues := [queuedUser30] }

/-- bcrypt verification stub for runs that never reach the password gate. -/
def pwNever : String → String → Bool := fun _ _ => false

/-- First of three seats in the rotation run's lobby. -/
def trioP1 : Player :=
  { id := 1, gameId := 9, userId := 11, lobbyId := 1, role := "player1"
    isReady := false, score := 0 }

/-- Second seat; currently holds the turn. -/
def trioP2 : Player :=
  { id := 2, gameId := 9, userId := 12, lobbyId := 1, role := "player2"
    isReady := false, score := 0 }

/-- Third seat. -/
def trioP3 : Player :=
  { id := 3, gameId := 9, userId := 13, lobbyId := 1, role := "player3"
    isReady := false, score := 0 }

/-- The three-player game with the turn at seat `p2`. -/
def gameTrio : Game :=
  { id := 9, lobbyId := 1, status := "in_progress", currentTurnPlayerId := 2
    roundNumber := 1, winner := "none" }

/-- A card of the three-player game, in player 2's hand, value `"3"`. -/
def cardTrio : Card :=
  { id := 500, deckId := 5, gameId := 9, code := "3C", value := "3", suit := "CLUBS"
    status := "hand", locationType := "hand", playerId := some 2
    isSpecialCard := false, specialAction := "none" }

/-- A play-pile top card of value `"7"`, so playing `cardTrio` on it is
illegal under `isValidPlay`. -/
def topTrio : Card :=
  { id := 600, deckId := 5, gameId := 9, code := "7D", value := "7", suit := "DIAMONDS"
    status := "played", locationType := "play_pile", playerId := none
    isSpecialCard := false, specialAction := "none" }

/-- State for the rotation and no-legality-check runs: players `[p1,p2,p3]`,
turn at `p2`. -/
def dbTrio : DB :=
  { emptyDB with
      games := [gameTrio]
      players := [trioP1, trioP2, trioP3]
      cards := [cardTrio, topTrio] }

/-- `cardTrio` after being played. -/
def cardTrioPlayed : Card :=
  { cardTrio with locationType := "play_pile", playerId := none }

/-- `gameTrio` after one `play_card`: the turn advanced from `p2` to `p3`. -/
def gameTrioNext : Game :=
  { gameTrio with currentTurnPlayerId := 3 }

/-- `gameTrio` after a second `play_card`: the turn wrapped to `p1`. -/
def gameTrioWrapped : Game :=
  { gameTrio with currentTurnPlayerId := 1 }

/-- A card still on the shared deck pile of game 50. -/
def deckCard : Card :=
  { id := 900, deckId := 5, gameId := 50, code := "2S", value := "2", suit := "SPADES"
    status := "in_deck", locationType := "deck", playerId := none
    isSpecialCard := false, specialAction := "none" }

/-- State for the draw run: one hand card (not eligible) and one deck
card. -/
def dbDraw : DB :=
  { emptyDB with cards := [handCard, deckCard] }

/-- A pending invitation of user 40 into lobby 1. -/
def invited40 : LobbyInvitation :=
  { id := 7, lobbyId := 1, inviterId := 10, invitedUserId := 40
    status := "pending", token := "", expiresAt := 1000 }

/-- The notification carrying lobby 1 in its data. -/
def notifLobby1 : Notification :=
  { id := 95, userId := 40, msgType := "lobby_invitation", dataLobbyId := some 1 }

/-- State for the owner-teardown run: lobby 1 together with its game, seats,
invitation, queue entry and related notification. -/
def dbTeardown : DB :=
  { emptyDB with
      lobbies := [lobbyTwoSeated]
      games := [gameWaiting]
      players := [ownerSeat, guestSeat]
      invitations := [invited40]
      queues := [queuedUser30]
      notifications := [notifLobby1] }

/-- State for the invite run: lobby 1 below capacity, no invitations yet. -/
def dbInviteReady : DB :=
  { emptyDB with lobbies := [lobbyTwoSeated] }

/-- A shuffled 52-card response from the Card Source. -/
def apiDeck : List ApiCard :=
  (List.range 52).map fun i =>
    { code := "c" ++ toString i, value := toString (i % 13 + 1), suit := "S", image := "" }

/-- State for the deck-creation run: game 50 with two seated players and no
Deck row yet. -/
def dbDeal : DB :=
  { emptyDB with
      games := [gameWaiting]
      players := [ownerSeat, guestSeat] }

/-! ## Theorems -/

/-- Updating the rows matched by a stable predicate moves `find?` through the
update: the first matching row is still found, updated. -/
theorem find?_map_if {α : Type} {p : α → Bool} {f : α → α}
    (hf : ∀ a, p a = true → p (f a) = true) :
    ∀ {xs : List α} {x : α}, xs.find? p = some x →
      (xs.map fun a => if p a then f a else a).find? p = some (f x) := by
  intro xs
  induction xs with
  | nil => intro x h; simp at h
  | cons a as ih =>
    intro x h
    cases hk : p a with
    | true =>
      rw [List.find?_cons_of_pos _ hk] at h
      injection h with h
      subst h
      simp only [List.map_cons, if_pos hk]
      exact List.find?_cons_of_pos _ (hf _ hk)
    | false =>
      rw [List.find?_cons_of_neg _ (by simp [hk])] at h
      simp only [List.map_cons, if_neg (by simp [hk] : ¬ p a = true)]
      rw [List.find?_cons_of_neg _ (by simp [hk])]
      exact ih h

/-- After filtering rows matching a predicate away, `find?` with that
predicate finds nothing. -/
theorem find?_filter_not {α : Type} (p : α → Bool) (xs : List α) :
    (xs.filter fun a => !(p a)).find? p = none := by
  rw [List.find?_eq_none]
  intro x hx
  have hmem := List.mem_filter.1 hx
  simp only [Bool.not_eq_true'] at hmem
  simp [hmem.2]

/-- `find?` by id through `DB.updateGame`. -/
theorem find?_updateGame (db : DB) (gid : Nat) (f : Game → Game)
    (hf : ∀ x, (f x).id = x.id) (g : Game)
    (hg : db.games.find? (fun x => x.id == gid) = some g) :
    (db.updateGame gid f).games.find? (fun x => x.id == gid) = some (f g) := by
  simp only [DB.updateGame]
  exact find?_map_if (fun a ha => by rw [hf]; exact ha) hg

/-- Full characterization of a successful `play_card` transaction: the card
found by id moves to the play pile and the named game's turn rotates by one
seat in its lobby's player list. -/
theorem playCardTx_spec (db : DB) (cardId gameId : Nat) (c : Card) (g : Game) (i : Nat)
    (hc : db.cards.find? (fun x => x.id == cardId) = some c)
    (hg : db.games.find? (fun x => x.id == gameId) = some g)
    (hidx : (lobbyPlayersOf db g).findIdx? (fun p => p.id == g.currentTurnPlayerId) = some i) :
    playCardTx db cardId gameId =
      .ok ((db.updateCard cardId fun x =>
            { x with locationType := "play_pile", playerId := none }).updateGame gameId
          fun x => { x with currentTurnPlayerId :=
            ((lobbyPlayersOf db g).getD ((i + 1) % (lobbyPlayersOf db g).length)
              dummyPlayer).id }) := by
  simp only [playCardTx, hc]
  simp only [moveToNextPlayer]
  have hgames : (db.updateCard cardId fun x =>
      { x with locationType := "play_pile", playerId := none }).games = db.games := rfl
  rw [hgames, hg]
  have hplayers : lobbyPlayersOf (db.updateCard cardId fun x =>
      { x with locationType := "play_pile", playerId := none }) g = lobbyPlayersOf db g := rfl
  simp only [hplayers, hidx]
  have hlen : ((lobbyPlayersOf db g).length == 0) = false := by
    cases hps : lobbyPlayersOf db g with
    | nil => rw [hps] at hidx; simp at hidx
    | cons q qs => simp
  rw [if_neg (by simp [hlen])]

/-- Claim C1: the lobby-capacity invariant — `current_players` equals the
live Player count and never exceeds `max_players`, preserved by every
seating/removal operation.  Refuted on `AcceptInvitation`: from a reachable
state satisfying the invariant (owner and user 20 seated, `current_players
= 2`, a pending invitation for the already-seated user 20), accepting the
invitation commits, seats nobody (`addPlayerToLobby` returns early on the
membership check), yet still runs its unconditional
`current_players = lobby.CurrentPlayers + 1` update: the counter drifts to 3
against 2 Player rows. -/
theorem acceptInvitation_counter_drift :
    lobbyCountInvariant dbAccept ∧
    committed (acceptInvitation dbAccept 20 1 500 60 61 62) = true ∧
    (committedDB dbAccept (acceptInvitation dbAccept 20 1 500 60 61 62)).lobbies.map
      Lobby.currentPlayers = [3] ∧
    playerCount (committedDB dbAccept (acceptInvitation dbAccept 20 1 500 60 61 62)) 1 = 2 ∧
    ¬ lobbyCountInvariant (committedDB dbAccept (acceptInvitation dbAccept 20 1 500 60 61 62)) := by
  refine ⟨by decide, by decide, by decide, by decide, by decide⟩

/-- Claim C3: a hub message on a connection whose session cookie resolves to
no stored session must perform no action and broadcast nothing but the
`game_error` notice.  Refuted: the source broadcasts `game_error` and then
falls through into the action switch, so the `play_card` transaction still
commits (the card moves to the play pile) and `game_update` is broadcast as
well. -/
theorem hub_invalid_session_still_acts :
    (hubDispatch dbNoSession "nosession" playCardMsg 0).2 = ["game_error", "game_update"] ∧
    (hubDispatch dbNoSession "nosession" playCardMsg 0).1 ≠ dbNoSession ∧
    ((hubDispatch dbNoSession "nosession" playCardMsg 0).1.cards.map Card.locationType) =
      ["play_pile"] := by
  refine ⟨by decide, by decide, by decide⟩

/-- Claim C7: joining a full lobby must queue the user at one more than the
lobby's previous maximum queue position.  Refuted on the position: with user
30 already queued at position 1, user 40's join against the full lobby
creates no Player row and does append a queue row, but the row's position is
again 1 (the max-position query orders by the nonexistent column
`queue_position`, always fails, and the default of 1 survives), not 2. -/
theorem queue_position_always_one :
    (joinLobbyV2 dbQueue 40 1 "" "" 0 pwNever 81 82 83).2 = .queued 1 ∧
    (joinLobbyV2 dbQueue 40 1 "" "" 0 pwNever 81 82 83).1.players = dbQueue.players ∧
    ((joinLobbyV2 dbQueue 40 1 "" "" 0 pwNever 81 82 83).1.queues.map LobbyQueue.position) =
      [some 1, some 1] := by
  refine ⟨by decide, by decide, by decide⟩

/-- Claim C4, counterexample: card 700 belongs to game 60, not to game 50
named in the payload, yet `play_card` does not fail — the transaction
commits, the card moves to the play pile and `game_update` is broadcast, so
the claimed NotFound rejection of a card id that does not resolve to the
payload's game does not exist in the code. -/
theorem playCard_crossGame_not_rejected :
    ((dbCrossGame.cards.find? fun c => c.id == 700).map Card.gameId) = some 60 ∧
    (playCardStep dbCrossGame 700 50).2 = ["game_update"] ∧
    (((playCardStep dbCrossGame 700 50).1.cards.find? fun c => c.id == 700).map
      Card.locationType) = some "play_pile" := by
  refine ⟨by decide, by decide, by decide⟩

/-- Claim C2: every successful `play_card` advances
`current_turn_player_id` round-robin to the seat at index
`(currentIndex + 1) % playerCount` of the game's lobby's stored player
list. -/
theorem playCard_advances_turn (db : DB) (cardId gameId : Nat) (c : Card) (g : Game) (i : Nat)
    (hc : db.cards.find? (fun x => x.id == cardId) = some c)
    (hg : db.games.find? (fun x => x.id == gameId) = some g)
    (hidx : (lobbyPlayersOf db g).findIdx? (fun p => p.id == g.currentTurnPlayerId) = some i) :
    (playCardStep db cardId gameId).2 = ["game_update"] ∧
    (playCardStep db cardId gameId).1.games.find? (fun x => x.id == gameId) =
      some { g with currentTurnPlayerId :=
        ((lobbyPlayersOf db g).getD ((i + 1) % (lobbyPlayersOf db g).length)
          dummyPlayer).id } := by
  have htx := playCardTx_spec db cardId gameId c g i hc hg hidx
  refine ⟨by simp [playCardStep, htx], ?_⟩
  simp only [playCardStep, htx]
  exact find?_updateGame (db.updateCard cardId fun x =>
      { x with locationType := "play_pile", playerId := none }) gameId
    (fun x => { x with currentTurnPlayerId :=
      ((lobbyPlayersOf db g).getD ((i + 1) % (lobbyPlayersOf db g).length) dummyPlayer).id })
    (fun x => rfl) g hg

/-- Claim C2, witness: with players `[p1, p2, p3]` (ids 1, 2, 3) and the turn
at `p2`, one `play_card` puts the turn at `p3` and a second one wraps it to
`p1`. -/
theorem playCard_advances_turn_witness :
    (playCardStep dbTrio 500 9).1.games.find? (fun x => x.id == 9) = some gameTrioNext ∧
    (playCardStep (playCardStep dbTrio 500 9).1 500 9).1.games.find? (fun x => x.id == 9) =
      some gameTrioWrapped := by
  constructor
  · exact (playCard_advances_turn dbTrio 500 9 cardTrio gameTrio 1
      (by decide) (by decide) (by decide)).2.trans (by decide)
  · exact (playCard_advances_turn (playCardStep dbTrio 500 9).1 500 9 cardTrioPlayed
      gameTrioNext 2 (by decide) (by decide) (by decide)).2.trans (by decide)

/-- Claim C10: whenever the card id resolves to a Card row and the game's
current player resolves, `play_card` unconditionally moves the card to the
play pile — there is no hypothesis about the card's current
`location_type`, its holder, or the acting player (the payload carries no
actor at all), and the outcome is the same even when `isValidPlay` rejects
the card against any top card: the defined legality predicate gates
nothing. -/
theorem playCard_unchecked (db : DB) (cardId gameId : Nat) (c : Card) (g : Game) (i : Nat)
    (hc : db.cards.find? (fun x => x.id == cardId) = some c)
    (hg : db.games.find? (fun x => x.id == gameId) = some g)
    (hidx : (lobbyPlayersOf db g).findIdx? (fun p => p.id == g.currentTurnPlayerId) = some i) :
    (playCardStep db cardId gameId).2 = ["game_update"] ∧
    (playCardStep db cardId gameId).1.cards =
      db.cards.map (fun x => if x.id == cardId then
        { x with locationType := "play_pile", playerId := none } else x) ∧
    ∀ top, isValidPlay c top = false → (playCardStep db cardId gameId).2 = ["game_update"] := by
  have htx := playCardTx_spec db cardId gameId c g i hc hg hidx
  refine ⟨by simp [playCardStep, htx], by simp [playCardStep, htx, DB.updateGame, DB.updateCard],
    fun _ _ => by simp [playCardStep, htx]⟩

/-- Claim C10, witness: card 500 sits on the play pile already, is held by
nobody, its value `"3"` is an illegal play on the top card of value `"7"`,
and the acting connection is unnamed — yet the play succeeds. -/
theorem playCard_unchecked_witness :
    isValidPlay cardTrioPlayed topTrio = false ∧
    (playCardStep (playCardStep dbTrio 500 9).1 500 9).2 = ["game_update"] := by
  refine ⟨by decide, ?_⟩
  exact ((playCard_unchecked (playCardStep dbTrio 500 9).1 500 9 cardTrioPlayed
    gameTrioNext 2 (by decide) (by decide) (by decide)).2.2) topTrio (by decide)

/-- Claim C4, amended: `play_card` fails atomically — transaction rolled
back, database unchanged, nothing broadcast — when the referenced card does
not exist, when the named game does not exist, or when the game's current
player is not found among the game's lobby players; the card-to-game binding
itself is never checked (see the counterexample). -/
theorem playCard_failure_atomic (db : DB) (cardId gameId : Nat)
    (h : db.cards.find? (fun x => x.id == cardId) = none ∨
         db.games.find? (fun x => x.id == gameId) = none ∨
         ∃ g, db.games.find? (fun x => x.id == gameId) = some g ∧
           (lobbyPlayersOf db g).findIdx? (fun p => p.id == g.currentTurnPlayerId) = none) :
    playCardStep db cardId gameId = (db, []) := by
  have htx : ∃ e, playCardTx db cardId gameId = .error e := by
    cases hcf : db.cards.find? (fun x => x.id == cardId) with
    | none => exact ⟨"Card not found", by simp [playCardTx, hcf]⟩
    | some c =>
      rcases h with h | h | ⟨g, hg, hni⟩
      · rw [hcf] at h; cases h
      · refine ⟨"game not found", ?_⟩
        simp only [playCardTx, hcf, moveToNextPlayer]
        rw [show (db.updateCard cardId fun x =>
          { x with locationType := "play_pile", playerId := none }).games = db.games from rfl, h]
      · have hupd : (db.updateCard cardId fun x =>
            { x with locationType := "play_pile", playerId := none }).games = db.games := rfl
        have hpl : lobbyPlayersOf (db.updateCard cardId fun x =>
            { x with locationType := "play_pile", playerId := none }) g = lobbyPlayersOf db g :=
          rfl
        simp only [playCardTx, hcf, moveToNextPlayer, hupd, hg, hpl]
        cases hps : lobbyPlayersOf db g with
        | nil => exact ⟨"no players in the game lobby", by simp⟩
        | cons q qs =>
          rw [hps] at hni
          refine ⟨"current player not found", ?_⟩
          rw [if_neg (by simp), hni]
  obtain ⟨e, htx⟩ := htx
  simp [playCardStep, htx]

/-- Claim C4, witness for the amended statement: no card with id 999 exists,
so `play_card` leaves the database untouched and broadcasts nothing. -/
theorem playCard_failure_atomic_witness :
    playCardStep dbCrossGame 999 50 = (dbCrossGame, []) :=
  playCard_failure_atomic dbCrossGame 999 50 (Or.inl (by decide))

/-- Mapping a function that fixes every member leaves a list unchanged. -/
theorem map_id_of_mem_eq {α : Type} (xs : List α) (f : α → α) (h : ∀ x ∈ xs, f x = x) :
    xs.map f = xs := by
  induction xs with
  | nil => rfl
  | cons a as ih =>
    simp only [List.map_cons, h a (by simp)]
    rw [ih fun x hx => h x (by simp [hx])]

/-- Claim C5: when at least one card has `location_type = deck` and no
holder, `draw_card` moves exactly one such card — arbitrary among the
eligible ones — to `status = hand`, `location_type = hand`,
`player_id = <drawer>`, leaving every other card row untouched; when no
eligible card exists the action is rejected with no mutation and no
broadcast. -/
theorem drawCard_spec (db : DB) (playerId pick : Nat)
    (hnodup : (db.cards.map Card.id).Nodup) :
    (eligibleDeck db = [] → drawCardStep db playerId pick = (db, [])) ∧
    (eligibleDeck db ≠ [] →
      let chosen := (eligibleDeck db).getD (pick % (eligibleDeck db).length) dummyCard
      chosen ∈ eligibleDeck db ∧ chosen.locationType = "deck" ∧ chosen.playerId = none ∧
      (drawCardStep db playerId pick).2 = ["game_update"] ∧
      ∃ pre post, db.cards = pre ++ chosen :: post ∧
        (drawCardStep db playerId pick).1.cards = pre ++
          { chosen with
              status := "hand"
              locationType := "hand"
              playerId := some playerId } :: post) := by
  constructor
  · intro h
    simp [drawCardStep, drawCardTx, h]
  · intro hne
    have hlt : pick % (eligibleDeck db).length < (eligibleDeck db).length := by
      obtain ⟨q, qs, hq⟩ := List.exists_cons_of_ne_nil hne
      exact Nat.mod_lt _ (by rw [hq]; simp)
    set chosen := (eligibleDeck db).getD (pick % (eligibleDeck db).length) dummyCard with hcdef
    have hmem : chosen ∈ eligibleDeck db := by
      rw [hcdef, List.getD_eq_getElem (eligibleDeck db) dummyCard hlt]
      exact List.getElem_mem hlt
    have hfil := List.mem_filter.1 (show chosen ∈ db.cards.filter
      (fun c => c.locationType == "deck" && c.playerId.isNone) from hmem)
    have hloc : chosen.locationType = "deck" := by
      have := hfil.2
      simp only [Bool.and_eq_true, beq_iff_eq, Option.isNone_iff_eq_none] at this
      exact this.1
    have hpid : chosen.playerId = none := by
      have := hfil.2
      simp only [Bool.and_eq_true, beq_iff_eq, Option.isNone_iff_eq_none] at this
      exact this.2
    have htx : drawCardTx db playerId pick = .ok (db.updateCard chosen.id fun c =>
        { c with status := "hand", locationType := "hand", playerId := some playerId }) := by
      unfold drawCardTx
      split
      · next h => exact absurd h hne
      · rfl
    refine ⟨hmem, hloc, hpid, by simp [drawCardStep, htx], ?_⟩
    obtain ⟨pre, post, hsplit⟩ := List.append_of_mem hfil.1
    have hnodup2 : ((pre ++ chosen :: post).map Card.id).Nodup := by rw [← hsplit]; exact hnodup
    simp only [List.map_append, List.map_cons] at hnodup2
    have hdisj := (List.nodup_append.1 hnodup2).2.2
    have hpostn := List.nodup_cons.1 (List.nodup_append.1 hnodup2).2.1
    have hpre : ∀ x ∈ pre, x.id ≠ chosen.id := by
      intro x hx hcontra
      exact hdisj (List.mem_map_of_mem Card.id hx) (by rw [hcontra]; exact List.mem_cons_self _ _)
    have hpost : ∀ x ∈ post, x.id ≠ chosen.id := by
      intro x hx hcontra
      exact hpostn.1 (by rw [← hcontra]; exact List.mem_map_of_mem Card.id hx)
    refine ⟨pre, post, hsplit, ?_⟩
    have hstep : (drawCardStep db playerId pick).1 = db.updateCard chosen.id fun c =>
        { c with status := "hand", locationType := "hand", playerId := some playerId } := by
      simp [drawCardStep, htx]
    rw [hstep]
    show db.cards.map _ = _
    rw [hsplit, List.map_append, List.map_cons]
    congr 1
    · exact map_id_of_mem_eq _ _ fun x hx => by rw [if_neg (by simp [hpre x hx])]
    · congr 1
      · simp
      · exact map_id_of_mem_eq _ _ fun x hx => by rw [if_neg (by simp [hpost x hx])]

/-- Claim C5, witness: the empty store rejects a draw without change or
broadcast; a store with one eligible deck card commits and broadcasts
`game_update`. -/
theorem drawCard_spec_witness :
    drawCardStep emptyDB 100 0 = (emptyDB, []) ∧
    (drawCardStep dbDraw 100 0).2 = ["game_update"] := by
  refine ⟨(drawCard_spec emptyDB 100 0 (by decide)).1 (by decide), ?_⟩
  exact ((drawCard_spec dbDraw 100 0 (by decide)).2 (by decide)).2.2.2.1

/-- A row surviving a `filter (fun a => !(p a))` falsifies `p`. -/
theorem eq_false_of_mem_filter_not {α : Type} {p : α → Bool} {xs : List α} {x : α}
    (hx : x ∈ xs.filter fun a => !(p a)) : p x = false := by
  have := (List.mem_filter.1 hx).2
  simpa using this

/-- Claim C8: when the owner leaves, the lobby and all of its invitations,
players, queue entries, games and related notifications are deleted in one
transaction, and afterwards any `JoinLobby` against that lobby id fails with
the NotFound response, changing nothing. -/
theorem leaveLobby_owner_teardown (db : DB) (userId lobbyId : Nat) (lobby : Lobby)
    (hfind : db.lobbies.find? (fun l => l.id == lobbyId) = some lobby)
    (howner : lobby.ownerId = userId) :
    leaveLobby db userId lobbyId = (deleteLobbyAndRelatedRecords db lobbyId, .deletedLobby) ∧
    (∀ p ∈ (deleteLobbyAndRelatedRecords db lobbyId).players, p.lobbyId ≠ lobbyId) ∧
    (∀ i ∈ (deleteLobbyAndRelatedRecords db lobbyId).invitations, i.lobbyId ≠ lobbyId) ∧
    (∀ q ∈ (deleteLobbyAndRelatedRecords db lobbyId).queues, q.lobbyId ≠ lobbyId) ∧
    (∀ g ∈ (deleteLobbyAndRelatedRecords db lobbyId).games, g.lobbyId ≠ lobbyId) ∧
    (∀ n ∈ (deleteLobbyAndRelatedRecords db lobbyId).notifications,
      n.dataLobbyId ≠ some lobbyId) ∧
    (∀ l ∈ (deleteLobbyAndRelatedRecords db lobbyId).lobbies, l.id ≠ lobbyId) ∧
    ∀ u, joinLobby (deleteLobbyAndRelatedRecords db lobbyId) u lobbyId =
      (deleteLobbyAndRelatedRecords db lobbyId, .notFound) := by
  refine ⟨?_, ?_, ?_, ?_, ?_, ?_, ?_, ?_⟩
  · simp only [leaveLobby, hfind]
    rw [if_pos (by simp [howner])]
  · exact fun p hp => by simpa using eq_false_of_mem_filter_not hp
  · exact fun i hi => by simpa using eq_false_of_mem_filter_not hi
  · exact fun q hq => by simpa using eq_false_of_mem_filter_not hq
  · exact fun g hg => by simpa using eq_false_of_mem_filter_not hg
  · exact fun n hn => by simpa using eq_false_of_mem_filter_not hn
  · exact fun l hl => by simpa using eq_false_of_mem_filter_not hl
  · intro u
    have hnone : (deleteLobbyAndRelatedRecords db lobbyId).lobbies.find?
        (fun l => l.id == lobbyId) = none :=
      find?_filter_not (fun l => l.id == lobbyId) db.lobbies
    simp [joinLobby, hnone]

/-- Claim C8, witness: owner 10 tears lobby 1 down; user 99's join against
lobby 1 then fails NotFound without touching the store. -/
theorem leaveLobby_owner_teardown_witness :
    leaveLobby dbTeardown 10 1 = (deleteLobbyAndRelatedRecords dbTeardown 1, .deletedLobby) ∧
    joinLobby (deleteLobbyAndRelatedRecords dbTeardown 1) 99 1 =
      (deleteLobbyAndRelatedRecords dbTeardown 1, .notFound) := by
  have h := leaveLobby_owner_teardown dbTeardown 10 1 lobbyTwoSeated (by decide) (by decide)
  exact ⟨h.1, h.2.2.2.2.2.2.2 99⟩

/-- Claim C9: at most one pending invitation exists per (lobby, invited
user) pair; `InviteUser` preserves this invariant — the only operation that
creates invitations — and rejects without any write when the invite is a
self-invite, when the caller is not the owner, when the lobby is full, or
when a pending invitation for that user already exists. -/
theorem inviteUser_unique_pending (db : DB) (uid lobbyId invited now iid nid : Nat)
    (hp : pendingUnique db) :
    pendingUnique (inviteUser db uid lobbyId invited now iid nid).1 ∧
    (invited = uid → inviteUser db uid lobbyId invited now iid nid = (db, .selfInvite)) ∧
    (∀ lobby, db.lobbies.find? (fun l => l.id == lobbyId) = some lobby → invited ≠ uid →
      lobby.ownerId ≠ uid → inviteUser db uid lobbyId invited now iid nid = (db, .notOwner)) ∧
    (∀ lobby, db.lobbies.find? (fun l => l.id == lobbyId) = some lobby → invited ≠ uid →
      lobby.ownerId = uid → lobby.currentPlayers ≥ lobby.maxPlayers →
      inviteUser db uid lobbyId invited now iid nid = (db, .lobbyFull)) ∧
    (∀ lobby, db.lobbies.find? (fun l => l.id == lobbyId) = some lobby → invited ≠ uid →
      lobby.ownerId = uid → lobby.currentPlayers < lobby.maxPlayers →
      (∃ inv ∈ db.invitations, inv.lobbyId = lobbyId ∧ inv.invitedUserId = invited ∧
        inv.status = "pending") →
      inviteUser db uid lobbyId invited now iid nid = (db, .duplicatePending)) := by
  refine ⟨?_, ?_, ?_, ?_, ?_⟩
  · unfold inviteUser
    split
    · exact hp
    · split
      · exact hp
      · next lobby heq =>
        split
        · exact hp
        · split
          · exact hp
          · split
            · exact hp
            · next hdup =>
              show pendingUnique { db with
                invitations := _, notifications := _ }
              unfold pendingUnique
              refine List.pairwise_append.2 ⟨hp, List.pairwise_singleton _ _, ?_⟩
              intro a ha b hb hap hbp hlob hinv
              have hbeq : b = { id := iid, lobbyId := lobby.id, inviterId := uid
                                invitedUserId := invited, status := "pending", token := ""
                                expiresAt := now + 30 * 60 } := by
                simpa using hb
              have hnone : db.invitations.find? (fun i =>
                  i.lobbyId == lobbyId && i.invitedUserId == invited &&
                  i.status == "pending") = none := by
                cases hfo : db.invitations.find? (fun i =>
                    i.lobbyId == lobbyId && i.invitedUserId == invited &&
                    i.status == "pending") with
                | none => rfl
                | some v => rw [hfo] at hdup; simp at hdup
              have hlid : lobby.id = lobbyId := by
                have := List.find?_some heq
                simpa using this
              have := List.find?_eq_none.1 hnone a ha
              apply this
              rw [hbeq] at hlob hinv
              simp only at hlob hinv
              simp [hap, hlob, hinv, hlid]
  · intro h
    unfold inviteUser
    rw [if_pos (by simp [h])]
  · intro lobby hfind hne hown
    simp only [inviteUser, hfind]
    rw [if_neg (by simp [hne])]
    rw [if_pos (by simp [hown])]
  · intro lobby hfind hne hown hfull
    simp only [inviteUser, hfind]
    rw [if_neg (by simp [hne])]
    rw [if_neg (by simp [hown])]
    rw [if_pos hfull]
  · intro lobby hfind hne hown hlt hdup
    simp only [inviteUser, hfind]
    rw [if_neg (by simp [hne])]
    rw [if_neg (by simp [hown])]
    rw [if_neg (by simp [Int.not_le.2 hlt])]
    rw [if_pos ?_]
    obtain ⟨inv, hmem, h1, h2, h3⟩ := hdup
    have : db.invitations.find? (fun i =>
        i.lobbyId == lobbyId && i.invitedUserId == invited &&
        i.status == "pending") ≠ none := by
      intro hno
      have := List.find?_eq_none.1 hno inv hmem
      simp [h1, h2, h3] at this
    cases hfo : db.invitations.find? (fun i =>
        i.lobbyId == lobbyId && i.invitedUserId == invited &&
        i.status == "pending") with
    | none => exact absurd hfo this
    | some v => simp

/-- Claim C9, witness: inviting user 40 into the half-full lobby keeps the
pending-invitation invariant; a self-invite by owner 10 is rejected without
a write. -/
theorem inviteUser_unique_pending_witness :
    pendingUnique (inviteUser dbInviteReady 10 1 40 0 90 91).1 ∧
    inviteUser dbInviteReady 10 1 10 0 90 91 = (dbInviteReady, .selfInvite) := by
  have h := inviteUser_unique_pending dbInviteReady 10 1 40 0 90 91 (by decide)
  have h2 := inviteUser_unique_pending dbInviteReady 10 1 10 0 90 91 (by decide)
  exact ⟨h.1, h2.2.1 rfl⟩

/-- The distribution loop consumes exactly one fetched card per slot when
enough cards remain. -/
theorem dealOut_eq (deckId gameId : Nat) :
    ∀ (slots : List (Nat × String)) (api : List ApiCard), slots.length ≤ api.length →
      dealOut deckId gameId slots api =
        some (List.zipWith (mkDealtCard deckId gameId) slots (api.take slots.length),
          api.drop slots.length) := by
  intro slots
  induction slots with
  | nil => intro api h; simp [dealOut]
  | cons s ss ih =>
    intro api h
    cases api with
    | nil => simp at h
    | cons a rest =>
      simp only [dealOut]
      rw [ih rest (by simpa using h)]
      simp

/-- Nine slots are produced per player. -/
theorem dealSlots_length (ps : List Player) : (dealSlots ps).length = 9 * ps.length := by
  induction ps with
  | nil => rfl
  | cons p ps ih =>
    simp only [dealSlots, dealSlotsFor, List.length_append, List.length_cons, ih]
    simp only [List.length_nil]
    omega

/-- Mapping a `zipWith` whose image depends only on the right argument. -/
theorem map_zipWith_right {α β γ δ : Type} (f : α → β → γ) (g : γ → δ) (k : β → δ)
    (hfg : ∀ a b, g (f a b) = k b) :
    ∀ (xs : List α) (ys : List β), xs.length = ys.length →
      (List.zipWith f xs ys).map g = ys.map k := by
  intro xs
  induction xs with
  | nil =>
    intro ys h
    cases ys with
    | nil => rfl
    | cons b bs => simp at h
  | cons a as ih =>
    intro ys h
    cases ys with
    | nil => simp at h
    | cons b bs => simp [hfg, ih bs (by simpa using h)]

/-- Mapping a `zipWith` whose image depends only on the left argument. -/
theorem map_zipWith_left {α β γ δ : Type} (f : α → β → γ) (g : γ → δ) (k : α → δ)
    (hfg : ∀ a b, g (f a b) = k a) :
    ∀ (xs : List α) (ys : List β), xs.length = ys.length →
      (List.zipWith f xs ys).map g = xs.map k := by
  intro xs
  induction xs with
  | nil =>
    intro ys h
    cases ys with
    | nil => rfl
    | cons b bs => simp at h
  | cons a as ih =>
    intro ys h
    cases ys with
    | nil => simp at h
    | cons b bs => simp [hfg, ih bs (by simpa using h)]

/-- Re-identifying created rows does not change any id-independent view. -/
theorem map_withFreshIds {δ : Type} (g : Card → δ) (hg : ∀ c n, g { c with id := n } = g c)
    (base : Nat) (cs : List Card) : (withFreshIds base cs).map g = cs.map g := by
  unfold withFreshIds
  exact map_zipWith_right _ g g (fun i c => hg c (base + i)) (List.range cs.length) cs (by simp)

/-- A constant map is a `replicate`. -/
theorem map_const_list {α δ : Type} (xs : List α) (d : δ) :
    xs.map (fun _ => d) = List.replicate xs.length d := by
  induction xs with
  | nil => rfl
  | cons a as ih => simp [ih, List.replicate_succ]

/-- The nine slots of each player map to the spec-side assignment. -/
theorem dealSlots_map (ps : List Player) :
    (dealSlots ps).map (fun s => (some s.1, s.2, "player")) = expectedAssignment ps := by
  induction ps with
  | nil => rfl
  | cons p ps ih =>
    simp only [dealSlots, dealSlotsFor, expectedAssignment, List.map_append, ih,
      List.map_cons, List.map_nil]
    rfl

/-- Any id-independent per-card view of the created card list that agrees
with the fetched card on both the dealt and the deck halves equals the view
of the whole fetched list. -/
theorem created_map_field {δ : Type} (deckId gameId : Nat) (players : List Player)
    (api : List ApiCard) (base : Nat) (g : Card → δ) (k : ApiCard → δ)
    (hg : ∀ c n, g { c with id := n } = g c)
    (h1 : ∀ s a, g (mkDealtCard deckId gameId s a) = k a)
    (h2 : ∀ a, g (mkDeckCard deckId gameId a) = k a)
    (hle : (dealSlots players).length ≤ api.length) :
    (withFreshIds base (List.zipWith (mkDealtCard deckId gameId) (dealSlots players)
        (api.take (dealSlots players).length) ++
      (api.drop (dealSlots players).length).map (mkDeckCard deckId gameId))).map g =
    api.map k := by
  rw [map_withFreshIds g hg, List.map_append]
  rw [map_zipWith_right _ g k h1 _ _ (by rw [List.length_take]; omega)]
  rw [List.map_map]
  have hk : (g ∘ mkDeckCard deckId gameId) = k := funext h2
  rw [hk, ← List.map_append, List.take_append_drop]

/-- `getSpecialAction` through propositional ifs. -/
theorem getSpecialAction_eq (v : String) :
    getSpecialAction v = if v = "6" then "any" else if v = "10" then "clear" else "none" := by
  unfold getSpecialAction
  by_cases h6 : v = "6" <;> by_cases h10 : v = "10" <;> simp [h6, h10]

/-- Claim C6: with no Deck row present, deck creation aborts whenever the
Card Source returns other than 52 cards; otherwise it commits one Deck and
52 Card rows whose codes, values and suits are the fetched ones in order,
assigns each player's first nine cards — three `hidden`, three `faceup`,
three `hand` — in player-list order, sends every remaining card to the
shared deck pile, and classifies `"6"` as `any`, `"10"` as `clear` and every
other value as `none`. -/
theorem getOrCreateGameCards_spec (db : DB) (gameId : Nat) (api : List ApiCard)
    (freshDeckId cardIdBase : Nat)
    (hnodeck : db.decks.find? (fun d => d.gameId == gameId) = none) :
    (api.length ≠ 52 →
      ∃ e, getOrCreateGameCards db gameId api freshDeckId cardIdBase = .error e) ∧
    (∀ players, db.players.filter (fun p => p.gameId == gameId) = players → players ≠ [] →
      api.length = 52 → 9 * players.length ≤ 52 →
      ∃ deck cards,
        getOrCreateGameCards db gameId api freshDeckId cardIdBase =
          .ok ({ db with decks := db.decks ++ [deck], cards := db.cards ++ cards }, cards) ∧
        cards.map Card.value = api.map ApiCard.value ∧
        cards.map Card.code = api.map ApiCard.code ∧
        cards.map Card.suit = api.map ApiCard.suit ∧
        cards.map (fun c => (c.playerId, c.status, c.locationType)) =
          expectedAssignment players ++
            List.replicate (52 - 9 * players.length) (none, "in_deck", "deck") ∧
        ∀ c ∈ cards, c.specialAction =
          if c.value = "6" then "any" else if c.value = "10" then "clear" else "none") := by
  constructor
  · intro h52
    simp only [getOrCreateGameCards, hnodeck, Option.isSome_none, Bool.false_eq_true, if_false]
    split
    · exact ⟨_, rfl⟩
    · rw [if_pos (by simpa using h52)]
      exact ⟨_, rfl⟩
  · intro players hP hne h52 h9
    have hle : (dealSlots players).length ≤ api.length := by
      rw [dealSlots_length, h52]; exact h9
    simp only [getOrCreateGameCards, hnodeck, Option.isSome_none, Bool.false_eq_true, if_false,
      hP]
    rw [if_neg (by simp [List.length_eq_zero, hne])]
    rw [if_neg (by simp [h52])]
    rw [dealOut_eq _ _ _ _ hle]
    refine ⟨_, _, rfl, ?_, ?_, ?_, ?_, ?_⟩
    · exact created_map_field _ _ _ _ _ Card.value ApiCard.value (fun c n => rfl)
        (fun s a => rfl) (fun a => rfl) hle
    · exact created_map_field _ _ _ _ _ Card.code ApiCard.code (fun c n => rfl)
        (fun s a => rfl) (fun a => rfl) hle
    · exact created_map_field _ _ _ _ _ Card.suit ApiCard.suit (fun c n => rfl)
        (fun s a => rfl) (fun a => rfl) hle
    · rw [map_withFreshIds (fun c => (c.playerId, c.status, c.locationType))
        (fun c n => rfl), List.map_append]
      rw [map_zipWith_left _ _ (fun s => (some s.1, s.2, "player")) (fun s a => rfl) _ _
        (by rw [List.length_take]; omega)]
      rw [dealSlots_map, List.map_map]
      have hdeck : ((fun c => (c.playerId, c.status, c.locationType)) ∘
          mkDeckCard freshDeckId gameId) =
          fun _ => ((none : Option Nat), "in_deck", "deck") := funext fun a => rfl
      rw [hdeck, map_const_list]
      rw [List.length_drop, dealSlots_length, h52]
    · intro c hc
      have hpair : ∀ x ∈ (withFreshIds cardIdBase
          (List.zipWith (mkDealtCard freshDeckId gameId) (dealSlots players)
            (api.take (dealSlots players).length) ++
          (api.drop (dealSlots players).length).map (mkDeckCard freshDeckId gameId))),
          (x.value, x.specialAction) ∈ api.map fun a => (a.value, getSpecialAction a.value) := by
        intro x hx
        have hmap := created_map_field freshDeckId gameId players api cardIdBase
          (fun c => (c.value, c.specialAction)) (fun a => (a.value, getSpecialAction a.value))
          (fun c n => rfl) (fun s a => rfl) (fun a => rfl) hle
        rw [← hmap]
        exact List.mem_map_of_mem _ hx
      obtain ⟨a, _, ha⟩ := List.mem_map.1 (hpair c hc)
      have hv : a.value = c.value := congrArg Prod.fst ha
      have hs : getSpecialAction a.value = c.specialAction := congrArg Prod.snd ha
      rw [← hs, hv, getSpecialAction_eq]

/-- Claim C6, witness: against game 50 with two players and no Deck row, an
empty Card Source response aborts, while a 52-card response commits the deck
and the created cards. -/
theorem getOrCreateGameCards_spec_witness :
    (∃ e, getOrCreateGameCards dbDeal 50 [] 70 1000 = .error e) ∧
    ∃ deck cards, getOrCreateGameCards dbDeal 50 apiDeck 70 1000 =
      .ok ({ dbDeal with decks := dbDeal.decks ++ [deck], cards := dbDeal.cards ++ cards },
        cards) := by
  constructor
  · exact (getOrCreateGameCards_spec dbDeal 50 [] 70 1000 (by decide)).1 (by decide)
  · obtain ⟨deck, cards, h1, hrest⟩ :=
      (getOrCreateGameCards_spec dbDeal 50 apiDeck 70 1000 (by decide)).2
        [ownerSeat, guestSeat] (by decide) (by decide) (by decide) (by decide)
    exact ⟨deck, cards, h1⟩

end Shithead
